import Mathlib

/-!
Verification of the notification core of the kube-job-notifier repository.

The embedding below translates, function by function, the Go sources:
  * pkg/notification/slack.go  — message templating and the Slack notifier
  * monitoring (datadog file)  — the Datadog metrics notifier
Side effects (HTTP calls to Slack, statsd emission) are made explicit: each
operation returns its result together with the ordered list of external
effects it performed, and the behaviour of the external APIs is supplied by
an oracle record.  Environment variables are passed as an explicit record;
`os.Getenv` of an unset variable yields the empty string, so a plain
string field models both "unset" and "set to empty".
-/

/-! ### Message template (pkg/notification/slack.go lines 16-21, 92-103)

The Go source renders the constant `SlackMessageTemplate` (an
`html/template`) whose text is, writing NL for a line break:
  NL `*JobName*: ` field(JobName) NL
  if-Namespace[ ` *Namespace*: ` field(Namespace) ` ` ] NL
  if-Log[ ` *Loglink*: ` field(Log) ` ` ] NL
A `field` interpolation HTML-escapes the value; an `if` on a string field
is taken exactly when the field is non-empty.  The template below is the
parse tree of that constant, and `execNodes` is the execution semantics. -/

/-- The rendering input struct `MessageTemplateParam` of slack.go. -/
structure MessageTemplateParam where
  JobName : String
  Namespace : String
  Log : String
deriving DecidableEq

/-- The three fields the template refers to. -/
inductive TField where
  | jobName
  | ns
  | log
deriving DecidableEq

def getTField : TField → MessageTemplateParam → String
  | .jobName, p => p.JobName
  | .ns, p => p.Namespace
  | .log, p => p.Log

/-- The double-quote character, written by code point to keep it out of
character-literal syntax. -/
def dquoteChar : Char := Char.ofNat 34

/-- The apostrophe character, written by code point. -/
def squoteChar : Char := Char.ofNat 39

/-- Go `html/template` text-context escaping of one character
(the library's `htmlReplacementTable`): `<ANGLE`, `>`, `&`, the two quote
characters become entities, NUL becomes U+FFFD, all else is unchanged. -/
def escChar (c : Char) : List Char :=
  if c = '<' then "&lt;".data
  else if c = '>' then "&gt;".data
  else if c = '&' then "&amp;".data
  else if c = dquoteChar then "&#34;".data
  else if c = squoteChar then "&#39;".data
  else if c = Char.ofNat 0 then [Char.ofNat 0xFFFD]
  else [c]

def escData (l : List Char) : List Char := l.flatMap escChar

/-- HTML-escape a string, character by character. -/
def esc (s : String) : String := ⟨escData s.data⟩

/-- A node appearing inside an `if` body of the constant template:
literal text or an escaped field interpolation. -/
inductive SimpleNode where
  | text (s : String)
  | field (f : TField)
deriving DecidableEq

/-- A top-level node of the constant template: a simple node, or an
`if`-block over a string field whose body is a list of simple nodes. -/
inductive TemplateNode where
  | simple (n : SimpleNode)
  | cond (f : TField) (body : List SimpleNode)
deriving DecidableEq

def execSimple (p : MessageTemplateParam) : SimpleNode → String
  | .text s => s
  | .field f => esc (getTField f p)

def execNode (p : MessageTemplateParam) : TemplateNode → String
  | .simple n => execSimple p n
  | .cond f body =>
      if getTField f p ≠ "" then String.join (body.map (execSimple p)) else ""

def execNodes (nodes : List TemplateNode) (p : MessageTemplateParam) : String :=
  String.join (nodes.map (execNode p))

/-- The parse tree of the constant `SlackMessageTemplate` of slack.go. -/
def slackTemplateNodes : List TemplateNode :=
  [ .simple (.text "\n*JobName*: "), .simple (.field .jobName), .simple (.text "\n"),
    .cond .ns [.text " *Namespace*: ", .field .ns, .text " "], .simple (.text "\n"),
    .cond .log [.text " *Loglink*: ", .field .log, .text " "], .simple (.text "\n") ]

/-- `getSlackMessage` of slack.go: parses the constant template and executes
it on the parameter.  Parsing the constant always succeeds, and executing
this template on a `MessageTemplateParam` cannot fail, so the two error
returns of the Go function are unreachable and the result is always `ok`. -/
def getSlackMessage (messageParam : MessageTemplateParam) : Except String String :=
  Except.ok (execNodes slackTemplateNodes messageParam)

/-- Number of newline characters in a string. -/
def countNewlines (s : String) : Nat := s.data.count '\n'

example : execNodes slackTemplateNodes ⟨"j", "n", ""⟩ = "\n*JobName*: j\n *Namespace*: n \n\n" := by decide

example : execNodes slackTemplateNodes ⟨"a<b", "", ""⟩ = "\n*JobName*: a&lt;b\n\n\n" := by decide

/-! ### The Slack notifier (pkg/notification/slack.go)

`NewSlack` reads `SLACK_TOKEN`, `SLACK_CHANNEL` and `SLACK_USERNAME` once;
each notify call re-reads the per-outcome override variable.  The external
Slack API is an oracle (`SlackAPI`) fixing the outcome of `UploadFile` and
`PostMessage`; each notifier operation returns its Go return value together
with the ordered list of API effects it performed. -/

/-- The environment variables the Slack notifier reads; `os.Getenv` of an
unset variable is the empty string. -/
structure Env where
  SLACK_TOKEN : String
  SLACK_CHANNEL : String
  SLACK_USERNAME : String
  SLACK_SUCCEED_CHANNEL : String
  SLACK_FAILED_CHANNEL : String
deriving DecidableEq

/-- The `slack` struct of slack.go. -/
structure slack where
  token : String
  channel : String
  username : String
deriving DecidableEq

/-- `NewSlack` of slack.go: an empty `SLACK_TOKEN` panics ("please set
slack token"), modelled as `none`; otherwise the struct holds the three
values read at construction time. -/
def NewSlack (env : Env) : Option slack :=
  if env.SLACK_TOKEN = "" then none
  else some { token := env.SLACK_TOKEN, channel := env.SLACK_CHANNEL,
              username := env.SLACK_USERNAME }

/-- The part of `slackapi.File` the source uses. -/
structure File where
  Name : String
  Permalink : String
deriving DecidableEq

/-- Oracle for the external Slack API: the outcome `api.UploadFile` and
`api.PostMessage` would return during this call chain. -/
structure SlackAPI where
  uploadResult : Except String File
  postResult : Except String (String × String)

/-- The fields of `slackapi.Attachment` the source sets. -/
structure Attachment where
  Color : String
  Title : String
  Text : String
deriving DecidableEq

/-- An external Slack API call, with the arguments the source passes. -/
inductive Effect where
  | uploadFile (title content filetype : String) (channels : List String)
  | postMessage (channel text : String) (attachments : List Attachment) (username : String)
deriving DecidableEq

/-- The `slackColors` map of slack.go; a missing key yields Go's zero
value for string. -/
def slackColors (k : String) : String :=
  if k = "Normal" then "good"
  else if k = "Warning" then "warning"
  else if k = "Danger" then "danger"
  else ""

/-- `notify` of slack.go: posts one message (empty text, one attachment,
the configured username) to the held channel and returns the API error. -/
def notify (s : slack) (api : SlackAPI) (attachment : Attachment) :
    Except String Unit × List Effect :=
  (match api.postResult with
   | .ok _ => .ok ()
   | .error e => .error e,
   [.postMessage s.channel "" [attachment] s.username])

/-- `uploadLog` of slack.go: uploads the raw log as a txt file titled
`namespace_jobName` to the held channel; the error is logged and returned. -/
def uploadLog (s : slack) (api : SlackAPI) (param : MessageTemplateParam) :
    Except String File × List Effect :=
  (api.uploadResult,
   [.uploadFile (param.Namespace ++ "_" ++ param.JobName) param.Log "txt" [s.channel]])

/-- `NotifyStart` of slack.go: re-reads `SLACK_SUCCEED_CHANNEL`, overrides
the channel when it is non-empty, renders the message and posts it with
color Normal and title "Job Start". -/
def NotifyStart (s : slack) (env : Env) (api : SlackAPI)
    (messageParam : MessageTemplateParam) : Except String Unit × List Effect :=
  let s := if env.SLACK_SUCCEED_CHANNEL ≠ "" then
    { s with channel := env.SLACK_SUCCEED_CHANNEL } else s
  match getSlackMessage messageParam with
  | .error e => (.error e, [])
  | .ok slackMessage =>
      notify s api { Color := slackColors "Normal", Title := "Job Start", Text := slackMessage }

/-- `NotifySuccess` of slack.go: re-reads `SLACK_SUCCEED_CHANNEL`; when the
log is non-empty it first uploads the log and, only on upload success,
replaces `Log` with the file's permalink; then renders and posts with
color Normal and title "Job Success". -/
def NotifySuccess (s : slack) (env : Env) (api : SlackAPI)
    (messageParam : MessageTemplateParam) : Except String Unit × List Effect :=
  let s := if env.SLACK_SUCCEED_CHANNEL ≠ "" then
    { s with channel := env.SLACK_SUCCEED_CHANNEL } else s
  if messageParam.Log ≠ "" then
    let up := uploadLog s api messageParam
    match up.1 with
    | .error e => (.error e, up.2)
    | .ok file =>
        let messageParam := { messageParam with Log := file.Permalink }
        match getSlackMessage messageParam with
        | .error e => (.error e, up.2)
        | .ok slackMessage =>
            let r := notify s api
              { Color := slackColors "Normal", Title := "Job Success", Text := slackMessage }
            (r.1, up.2 ++ r.2)
  else
    match getSlackMessage messageParam with
    | .error e => (.error e, [])
    | .ok slackMessage =>
        notify s api { Color := slackColors "Normal", Title := "Job Success", Text := slackMessage }

/-- `NotifyFailed` of slack.go: same shape as `NotifySuccess` but reads
`SLACK_FAILED_CHANNEL` and posts with color Danger and title "Job Failed". -/
def NotifyFailed (s : slack) (env : Env) (api : SlackAPI)
    (messageParam : MessageTemplateParam) : Except String Unit × List Effect :=
  let s := if env.SLACK_FAILED_CHANNEL ≠ "" then
    { s with channel := env.SLACK_FAILED_CHANNEL } else s
  if messageParam.Log ≠ "" then
    let up := uploadLog s api messageParam
    match up.1 with
    | .error e => (.error e, up.2)
    | .ok file =>
        let messageParam := { messageParam with Log := file.Permalink }
        match getSlackMessage messageParam with
        | .error e => (.error e, up.2)
        | .ok slackMessage =>
            let r := notify s api
              { Color := slackColors "Danger", Title := "Job Failed", Text := slackMessage }
            (r.1, up.2 ++ r.2)
  else
    match getSlackMessage messageParam with
    | .error e => (.error e, [])
    | .ok slackMessage =>
        notify s api { Color := slackColors "Danger", Title := "Job Failed", Text := slackMessage }

/-- The list of channels an effect addresses. -/
def effectChannels : Effect → List String
  | .uploadFile _ _ _ chs => chs
  | .postMessage ch _ _ _ => [ch]

/-- Whether an effect is a message post. -/
def isPostEffect : Effect → Bool
  | .postMessage _ _ _ _ => true
  | .uploadFile _ _ _ _ => false

/-- Whether an effect is a file upload. -/
def isUploadEffect : Effect → Bool
  | .uploadFile _ _ _ _ => true
  | .postMessage _ _ _ _ => false

/-- The attachment text of a single-attachment message post. -/
def postedText : Effect → Option String
  | .postMessage _ _ [a] _ => some a.Text
  | _ => none


/-! ### The Datadog metrics notifier (monitoring source file)

`newDatadog` builds a statsd client against the fixed UDS address; a
construction error is only logged and the nil client is kept.  Go writes
through a nil `*statsd.Client` (the `client.Tags` / `client.Namespace`
assignments) and unguarded uses of a nil client are modelled by the
`GoOutcome.nilDeref` outcome. -/

/-- The `JobInfo` record consumed by the metrics notifier. -/
structure JobInfo where
  Name : String
  Namespace : String
deriving DecidableEq

/-- Characters a Kubernetes-generated name suffix is drawn from. -/
def isGeneratedIdChar (c : Char) : Bool := c.isDigit || c.isLower

/-- Split a character list at its LAST dash: `some (before, after)` when a
dash occurs, `none` otherwise. -/
def splitLastDash : List Char → Option (List Char × List Char)
  | [] => none
  | c :: rest =>
      match splitLastDash rest with
      | some (pre, suf) => some (c :: pre, suf)
      | none => if c = '-' then some ([], rest) else none

/-- Modelled from the spec: the `getJobName` accessor of `JobInfo` is not in
the excerpted sources; the spec describes it as stripping a trailing
generated-ID suffix from the job name if one is present (example:
"etl-job-27x9k" becomes "etl-job").  The segment after the last dash is
treated as a generated ID when it is non-empty, drawn from the lowercase
alphanumeric alphabet, and contains at least one digit. -/
def getJobName (j : JobInfo) : String :=
  match splitLastDash j.Name.data with
  | some (pre, suf) =>
      if suf ≠ [] && suf.all isGeneratedIdChar && suf.any Char.isDigit
      then ⟨pre⟩ else j.Name
  | none => j.Name

/-- The fixed statsd unix-socket address of the monitoring source. -/
def defaultStatsAddrUDS : String := "unix:///var/run/datadog/dsd.socket"

/-- The fixed hostname constant of the monitoring source. -/
def ddHostName : String := "kube-job-notifier"

/-- The fixed service-check identifier of the monitoring source. -/
def serviceCheckName : String := "kube_job_notifier.job.status"

/-- The service-check status values used by the source. -/
inductive SCStatus where
  | Ok
  | Critical
deriving DecidableEq

/-- `statsd.ServiceCheck`, restricted to the fields the source sets. -/
structure ServiceCheck where
  Name : String
  Status : SCStatus
  Message : String
  Hostname : String
  Tags : List String
deriving DecidableEq

/-- The mutable state of a `*statsd.Client`, plus an oracle for the outcome
its `ServiceCheck` method would report. -/
structure StatsdClient where
  Tags : List String
  Namespace : String
  serviceCheckResult : Except String Unit

/-- The `datadog` struct: its client pointer may be nil (`none`). -/
structure datadog where
  client : Option StatsdClient

/-- Outcome of a Go computation that may dereference a nil pointer. -/
inductive GoOutcome (α : Type) where
  | ok (a : α)
  | nilDeref

/-- The environment variables the metrics notifier reads. -/
structure DDEnv where
  DD_TAGS : String
  DD_NAMESPACE : String
deriving DecidableEq

/-- `newDatadog` of the monitoring source.  `newResult` is the outcome of
`statsd.New(defaultStatsAddrUDS)`: on error the source only logs and keeps
the nil client.  It then assigns `client.Tags` when `DD_TAGS` is non-empty
and `client.Namespace` when `DD_NAMESPACE` is non-empty; each assignment
dereferences the client pointer, which is a nil dereference when the
client is nil. -/
def newDatadog (newResult : Except String StatsdClient) (env : DDEnv) :
    GoOutcome datadog :=
  let client : Option StatsdClient :=
    match newResult with
    | .ok c => some c
    | .error _ => none
  let step1 : GoOutcome (Option StatsdClient) :=
    if env.DD_TAGS ≠ "" then
      match client with
      | some c => .ok (some { c with Tags := [env.DD_TAGS] })
      | none => .nilDeref
    else .ok client
  match step1 with
  | .nilDeref => .nilDeref
  | .ok client =>
      let step2 : GoOutcome (Option StatsdClient) :=
        if env.DD_NAMESPACE ≠ "" then
          match client with
          | some c => .ok (some { c with Namespace := env.DD_NAMESPACE })
          | none => .nilDeref
        else .ok client
      match step2 with
      | .nilDeref => .nilDeref
      | .ok client => .ok { client := client }

/-- `ErrNoClient` of the datadog-go statsd library: every reporting method
(`ServiceCheck` included) guards a nil receiver and returns this error
instead of touching the client's state. -/
def errNoClient : String := "statsd client is nil"

/-- `SuccessEvent` of the monitoring source: builds the OK service check and
calls `d.client.ServiceCheck(sc)` with no nil guard of its own.  A Go method
call on a nil pointer receiver is legal; the library method's nil guard then
returns `ErrNoClient` without emitting anything, so with a nil client the
call yields that error and an empty trace.  With a live client the check is
emitted and the client's error, if any, is logged and returned. -/
def SuccessEvent (d : datadog) (jobInfo : JobInfo) :
    GoOutcome (Except String Unit) × List ServiceCheck :=
  let sc : ServiceCheck :=
    { Name := serviceCheckName, Status := .Ok, Message := "Job succeed",
      Hostname := ddHostName,
      Tags := ["job_name:" ++ getJobName jobInfo, "namespace:" ++ jobInfo.Namespace] }
  match d.client with
  | none => (.ok (.error errNoClient), [])
  | some c =>
      match c.serviceCheckResult with
      | .error e => (.ok (.error e), [sc])
      | .ok _ => (.ok (.ok ()), [sc])

/-- `FailEvent` of the monitoring source: identical to `SuccessEvent` except
for status Critical and message "Job failed". -/
def FailEvent (d : datadog) (jobInfo : JobInfo) :
    GoOutcome (Except String Unit) × List ServiceCheck :=
  let sc : ServiceCheck :=
    { Name := serviceCheckName, Status := .Critical, Message := "Job failed",
      Hostname := ddHostName,
      Tags := ["job_name:" ++ getJobName jobInfo, "namespace:" ++ jobInfo.Namespace] }
  match d.client with
  | none => (.ok (.error errNoClient), [])
  | some c =>
      match c.serviceCheckResult with
      | .error e => (.ok (.error e), [sc])
      | .ok _ => (.ok (.ok ()), [sc])

example : getJobName ⟨"etl-job-27x9k", "data"⟩ = "etl-job" := by decide
example : getJobName ⟨"etl-job", "data"⟩ = "etl-job" := by decide

/-! ### Helper lemmas about the rendered template -/

theorem data_append_eq (s t : String) : (s ++ t).data = s.data ++ t.data := rfl

theorem empty_string_data : ("" : String).data = [] := rfl

/-- Closed form of executing the constant template. -/
theorem exec_shape (p : MessageTemplateParam) :
    execNodes slackTemplateNodes p =
      "\n*JobName*: " ++ esc p.JobName ++ "\n" ++
      (if p.Namespace = "" then "" else " *Namespace*: " ++ esc p.Namespace ++ " ") ++ "\n" ++
      (if p.Log = "" then "" else " *Loglink*: " ++ esc p.Log ++ " ") ++ "\n" := by
  by_cases hn : p.Namespace = "" <;> by_cases hl : p.Log = "" <;>
    simp [execNodes, execNode, execSimple, slackTemplateNodes, getTField, String.join,
      hn, hl, String.append_assoc]

/-- Closed form of the character data of the rendered template. -/
theorem execData_shape (p : MessageTemplateParam) :
    (execNodes slackTemplateNodes p).data =
      "\n*JobName*: ".data ++ (escData p.JobName.data ++ ("\n".data ++
      ((if p.Namespace = "" then [] else
          " *Namespace*: ".data ++ (escData p.Namespace.data ++ " ".data)) ++ ("\n".data ++
      ((if p.Log = "" then [] else
          " *Loglink*: ".data ++ (escData p.Log.data ++ " ".data)) ++ "\n".data))))) := by
  rw [exec_shape]
  by_cases hn : p.Namespace = "" <;> by_cases hl : p.Log = "" <;>
    simp [hn, hl, data_append_eq, esc, empty_string_data, List.append_assoc]

/-- The four characters whose literal form never survives escaping. -/
def forbiddenChars : List Char := ['<', '>', dquoteChar, squoteChar]

theorem notin_escChar {c : Char} (hc : c ∈ forbiddenChars) (x : Char) :
    c ∉ escChar x := by
  intro hmem
  unfold escChar at hmem
  split_ifs at hmem with h1 h2 h3 h4 h5 h6 <;>
    simp only [forbiddenChars, List.mem_cons, List.not_mem_nil, or_false] at hc <;>
    rcases hc with rfl | rfl | rfl | rfl <;>
    first
      | (revert hmem; decide)
      | (simp only [List.mem_singleton] at hmem; subst hmem; simp_all)

theorem notin_escData {c : Char} (hc : c ∈ forbiddenChars) (l : List Char) :
    c ∉ escData l := by
  induction l with
  | nil => simp [escData]
  | cons x xs ih =>
      intro hmem
      rw [escData, List.flatMap_cons] at hmem
      rcases List.mem_append.mp hmem with h | h
      · exact notin_escChar hc x h
      · exact ih h

theorem newline_notin_escChar {x : Char} (hx : x ≠ '\n') : '\n' ∉ escChar x := by
  intro hmem
  unfold escChar at hmem
  split_ifs at hmem with h1 h2 h3 h4 h5 h6 <;>
    first
      | (revert hmem; decide)
      | (simp only [List.mem_singleton] at hmem; exact hx hmem.symm)

theorem newline_notin_escData {l : List Char} (h : '\n' ∉ l) : '\n' ∉ escData l := by
  induction l with
  | nil => simp [escData]
  | cons x xs ih =>
      intro hmem
      rw [escData, List.flatMap_cons] at hmem
      rcases List.mem_append.mp hmem with hm | hm
      · exact newline_notin_escChar (fun he => h (he ▸ List.mem_cons_self x xs)) hm
      · exact ih (fun hi => h (List.mem_cons_of_mem x hi)) hm

/-- `sub` occurs contiguously inside `whole`. -/
def containsSub (sub whole : List Char) : Prop :=
  ∃ l1 l2, whole = l1 ++ (sub ++ l2)

theorem containsSub_append_left {sub m : List Char} (b : List Char)
    (h : containsSub sub m) : containsSub sub (m ++ b) := by
  obtain ⟨l1, l2, rfl⟩ := h
  exact ⟨l1, l2 ++ b, by simp⟩

theorem containsSub_append_right {sub m : List Char} (a : List Char)
    (h : containsSub sub m) : containsSub sub (a ++ m) := by
  obtain ⟨l1, l2, rfl⟩ := h
  exact ⟨a ++ l1, l2, by simp⟩

theorem containsSub_escData {c : Char} {l : List Char} (h : c ∈ l) :
    containsSub (escChar c) (escData l) := by
  obtain ⟨s, t, rfl⟩ := List.mem_iff_append.mp h
  exact ⟨escData s, escData t, by simp [escData]⟩

/-- A character of any field makes the whole render contain its escape. -/
theorem escChar_in_render {c : Char} (p : MessageTemplateParam)
    (h : c ∈ p.JobName.data ∨ c ∈ p.Namespace.data ∨ c ∈ p.Log.data) :
    containsSub (escChar c) (execNodes slackTemplateNodes p).data := by
  rw [execData_shape]
  rcases h with h | h | h
  · exact containsSub_append_right _
      (containsSub_append_left _ (containsSub_escData h))
  · have hne : p.Namespace ≠ "" := by
      intro he
      rw [he, empty_string_data] at h
      simp at h
    rw [if_neg hne]
    exact containsSub_append_right _ (containsSub_append_right _
      (containsSub_append_right _ (containsSub_append_left _
        (containsSub_append_right _ (containsSub_append_left _
          (containsSub_escData h))))))
  · have hne : p.Log ≠ "" := by
      intro he
      rw [he, empty_string_data] at h
      simp at h
    rw [if_neg hne]
    exact containsSub_append_right _ (containsSub_append_right _
      (containsSub_append_right _ (containsSub_append_right _
        (containsSub_append_right _ (containsSub_append_left _
          (containsSub_append_right _ (containsSub_append_left _
            (containsSub_escData h))))))))

/-- No forbidden character survives anywhere in the rendered output. -/
theorem forbidden_notin_render {c : Char} (hc : c ∈ forbiddenChars)
    (p : MessageTemplateParam) : c ∉ (execNodes slackTemplateNodes p).data := by
  have h1 := notin_escData hc p.JobName.data
  have h2 := notin_escData hc p.Namespace.data
  have h3 := notin_escData hc p.Log.data
  have hc' : c = '<' ∨ c = '>' ∨ c = dquoteChar ∨ c = squoteChar := by
    simpa [forbiddenChars] using hc
  rw [execData_shape]
  by_cases hn : p.Namespace = "" <;> by_cases hl : p.Log = "" <;>
    rcases hc' with rfl | rfl | rfl | rfl <;>
    simp [hn, hl, List.mem_append, not_or, h1, h2, h3] <;>
    decide

/-- With newline-free fields the render has exactly the template's four
newline characters. -/
theorem render_newline_count (p : MessageTemplateParam)
    (hJ : '\n' ∉ p.JobName.data) (hN : '\n' ∉ p.Namespace.data)
    (hL : '\n' ∉ p.Log.data) :
    countNewlines (execNodes slackTemplateNodes p) = 4 := by
  have e1 : (escData p.JobName.data).count '\n' = 0 :=
    List.count_eq_zero.mpr (newline_notin_escData hJ)
  have e2 : (escData p.Namespace.data).count '\n' = 0 :=
    List.count_eq_zero.mpr (newline_notin_escData hN)
  have e3 : (escData p.Log.data).count '\n' = 0 :=
    List.count_eq_zero.mpr (newline_notin_escData hL)
  have f1 : "\n*JobName*: ".data.count '\n' = 1 := by decide
  have f2 : "\n".data.count '\n' = 1 := by decide
  have f3 : " *Namespace*: ".data.count '\n' = 0 := by decide
  have f4 : " *Loglink*: ".data.count '\n' = 0 := by decide
  have f5 : " ".data.count '\n' = 0 := by decide
  rw [countNewlines, execData_shape]
  by_cases hn : p.Namespace = "" <;> by_cases hl : p.Log = "" <;>
    simp [hn, hl, List.count_append, e1, e2, e3, f1, f2, f3, f4, f5]

/-- The render always starts with a newline character. -/
theorem render_head (p : MessageTemplateParam) :
    (execNodes slackTemplateNodes p).data.head? = some '\n' := by
  rw [execData_shape]
  rfl

/-! ### Claim theorems: message formatting -/

/-- C4: a successful `Render` always includes the JobName segment, includes
the Namespace segment exactly when `Namespace` is non-empty, includes the
Loglink segment exactly when `Log` is non-empty, and the segments appear in
the fixed order JobName, Namespace, Loglink, each terminated by its own
newline. -/
theorem render_line_structure (p : MessageTemplateParam) :
    getSlackMessage p = Except.ok
      ("\n*JobName*: " ++ esc p.JobName ++ "\n" ++
       (if p.Namespace = "" then "" else " *Namespace*: " ++ esc p.Namespace ++ " ") ++ "\n" ++
       (if p.Log = "" then "" else " *Loglink*: " ++ esc p.Log ++ " ") ++ "\n") :=
  congrArg Except.ok (exec_shape p)

/-- C9 counterexample: with a newline inside `JobName` the rendered output
contains five newline characters, not only the template's own four, so the
claim's "contains exactly the three template lines' newlines" fails as
stated for arbitrary parameters. -/
theorem render_newline_counterexample :
    getSlackMessage { JobName := "a\nb", Namespace := "", Log := "" } =
      Except.ok "\n*JobName*: a\nb\n\n\n" ∧
    countNewlines "\n*JobName*: a\nb\n\n\n" = 5 := by
  constructor
  · rfl
  · decide

/-- C9 (amended): provided the field values contain no newline character,
a successful render keeps the conditional lines as blank lines rather than
removing them: the output starts with a newline, contains exactly the four
newline characters of the template text, and when `Namespace` (resp. `Log`)
is empty the corresponding line is an empty line between two newlines. -/
theorem render_blank_conditional_lines (p : MessageTemplateParam)
    (hJ : '\n' ∉ p.JobName.data) (hN : '\n' ∉ p.Namespace.data)
    (hL : '\n' ∉ p.Log.data) :
    (execNodes slackTemplateNodes p).data.head? = some '\n' ∧
    countNewlines (execNodes slackTemplateNodes p) = 4 ∧
    (p.Namespace = "" → getSlackMessage p = Except.ok
      ("\n*JobName*: " ++ esc p.JobName ++ "\n" ++ "\n" ++
       (if p.Log = "" then "" else " *Loglink*: " ++ esc p.Log ++ " ") ++ "\n")) ∧
    (p.Log = "" → getSlackMessage p = Except.ok
      ("\n*JobName*: " ++ esc p.JobName ++ "\n" ++
       (if p.Namespace = "" then "" else " *Namespace*: " ++ esc p.Namespace ++ " ") ++
       "\n" ++ "\n")) := by
  refine ⟨render_head p, render_newline_count p hJ hN hL, ?_, ?_⟩
  · intro hn
    unfold getSlackMessage
    rw [exec_shape]
    simp [hn, String.append_empty]
  · intro hl
    unfold getSlackMessage
    rw [exec_shape]
    simp [hl, String.append_empty]

/-- Witness for the amended C9 at a concrete parameter. -/
theorem render_blank_conditional_lines_witness :
    '\n' ∉ ("j" : String).data ∧
    countNewlines (execNodes slackTemplateNodes ⟨"j", "", ""⟩) = 4 :=
  ⟨by decide,
   (render_blank_conditional_lines ⟨"j", "", ""⟩ (by decide) (by decide) (by decide)).2.1⟩

/-- C8: the template interpolations HTML-escape field values: the rendered
text never contains a literal angle bracket or quote character, and each
HTML-special character occurring in a field shows up as its entity form. -/
theorem render_html_escapes (p : MessageTemplateParam) :
    ('<' ∉ (execNodes slackTemplateNodes p).data ∧
     '>' ∉ (execNodes slackTemplateNodes p).data ∧
     dquoteChar ∉ (execNodes slackTemplateNodes p).data ∧
     squoteChar ∉ (execNodes slackTemplateNodes p).data) ∧
    (('<' ∈ p.JobName.data ∨ '<' ∈ p.Namespace.data ∨ '<' ∈ p.Log.data →
        containsSub "&lt;".data (execNodes slackTemplateNodes p).data) ∧
     ('>' ∈ p.JobName.data ∨ '>' ∈ p.Namespace.data ∨ '>' ∈ p.Log.data →
        containsSub "&gt;".data (execNodes slackTemplateNodes p).data) ∧
     ('&' ∈ p.JobName.data ∨ '&' ∈ p.Namespace.data ∨ '&' ∈ p.Log.data →
        containsSub "&amp;".data (execNodes slackTemplateNodes p).data) ∧
     (dquoteChar ∈ p.JobName.data ∨ dquoteChar ∈ p.Namespace.data ∨
        dquoteChar ∈ p.Log.data →
        containsSub "&#34;".data (execNodes slackTemplateNodes p).data) ∧
     (squoteChar ∈ p.JobName.data ∨ squoteChar ∈ p.Namespace.data ∨
        squoteChar ∈ p.Log.data →
        containsSub "&#39;".data (execNodes slackTemplateNodes p).data)) := by
  refine ⟨⟨forbidden_notin_render (by decide) p, forbidden_notin_render (by decide) p,
          forbidden_notin_render (by decide) p, forbidden_notin_render (by decide) p⟩,
         fun h => ?_, fun h => ?_, fun h => ?_, fun h => ?_, fun h => ?_⟩ <;>
    exact escChar_in_render p h

/-- Witness for C8 at a concrete parameter containing `<`. -/
theorem render_html_escapes_witness :
    ('<' ∈ ("a<b" : String).data ∨ '<' ∈ ("" : String).data ∨
       '<' ∈ ("" : String).data) ∧
    containsSub "&lt;".data (execNodes slackTemplateNodes ⟨"a<b", "", ""⟩).data :=
  ⟨Or.inl (by decide),
   (render_html_escapes ⟨"a<b", "", ""⟩).2.1 (Or.inl (by decide))⟩

/-! ### Helper characterizations of the notifier operations -/

/-- The channel slack.go resolves for start/success notifications: the
`SLACK_SUCCEED_CHANNEL` value read at call time when non-empty, otherwise
the channel held since construction. -/
def succChannel (s : slack) (env : Env) : String :=
  if env.SLACK_SUCCEED_CHANNEL ≠ "" then env.SLACK_SUCCEED_CHANNEL else s.channel

/-- The channel slack.go resolves for failure notifications. -/
def failChannel (s : slack) (env : Env) : String :=
  if env.SLACK_FAILED_CHANNEL ≠ "" then env.SLACK_FAILED_CHANNEL else s.channel

theorem NotifyStart_eq (s : slack) (env : Env) (api : SlackAPI)
    (p : MessageTemplateParam) :
    NotifyStart s env api p =
      ((match api.postResult with
        | .ok _ => Except.ok ()
        | .error e => Except.error e),
       [Effect.postMessage (succChannel s env) ""
          [{ Color := slackColors "Normal", Title := "Job Start",
             Text := execNodes slackTemplateNodes p }] s.username]) := by
  by_cases he : env.SLACK_SUCCEED_CHANNEL ≠ "" <;>
    simp [NotifyStart, succChannel, notify, getSlackMessage, he]

theorem NotifySuccess_log_eq (s : slack) (env : Env) (api : SlackAPI)
    (p : MessageTemplateParam) (h : p.Log ≠ "") :
    NotifySuccess s env api p =
      match api.uploadResult with
      | .error e => (Except.error e,
          [Effect.uploadFile (p.Namespace ++ "_" ++ p.JobName) p.Log "txt"
            [succChannel s env]])
      | .ok file =>
          ((match api.postResult with
            | .ok _ => Except.ok ()
            | .error e => Except.error e),
           [Effect.uploadFile (p.Namespace ++ "_" ++ p.JobName) p.Log "txt"
              [succChannel s env],
            Effect.postMessage (succChannel s env) ""
              [{ Color := slackColors "Normal", Title := "Job Success",
                 Text := execNodes slackTemplateNodes { p with Log := file.Permalink } }]
              s.username]) := by
  by_cases he : env.SLACK_SUCCEED_CHANNEL ≠ "" <;>
    cases hu : api.uploadResult <;>
      simp [NotifySuccess, succChannel, uploadLog, notify, getSlackMessage, h, he, hu]

theorem NotifySuccess_nolog_eq (s : slack) (env : Env) (api : SlackAPI)
    (p : MessageTemplateParam) (h : p.Log = "") :
    NotifySuccess s env api p =
      ((match api.postResult with
        | .ok _ => Except.ok ()
        | .error e => Except.error e),
       [Effect.postMessage (succChannel s env) ""
          [{ Color := slackColors "Normal", Title := "Job Success",
             Text := execNodes slackTemplateNodes p }] s.username]) := by
  by_cases he : env.SLACK_SUCCEED_CHANNEL ≠ "" <;>
    simp [NotifySuccess, succChannel, notify, getSlackMessage, h, he]

theorem NotifyFailed_log_eq (s : slack) (env : Env) (api : SlackAPI)
    (p : MessageTemplateParam) (h : p.Log ≠ "") :
    NotifyFailed s env api p =
      match api.uploadResult with
      | .error e => (Except.error e,
          [Effect.uploadFile (p.Namespace ++ "_" ++ p.JobName) p.Log "txt"
            [failChannel s env]])
      | .ok file =>
          ((match api.postResult with
            | .ok _ => Except.ok ()
            | .error e => Except.error e),
           [Effect.uploadFile (p.Namespace ++ "_" ++ p.JobName) p.Log "txt"
              [failChannel s env],
            Effect.postMessage (failChannel s env) ""
              [{ Color := slackColors "Danger", Title := "Job Failed",
                 Text := execNodes slackTemplateNodes { p with Log := file.Permalink } }]
              s.username]) := by
  by_cases he : env.SLACK_FAILED_CHANNEL ≠ "" <;>
    cases hu : api.uploadResult <;>
      simp [NotifyFailed, failChannel, uploadLog, notify, getSlackMessage, h, he, hu]

theorem NotifyFailed_nolog_eq (s : slack) (env : Env) (api : SlackAPI)
    (p : MessageTemplateParam) (h : p.Log = "") :
    NotifyFailed s env api p =
      ((match api.postResult with
        | .ok _ => Except.ok ()
        | .error e => Except.error e),
       [Effect.postMessage (failChannel s env) ""
          [{ Color := slackColors "Danger", Title := "Job Failed",
             Text := execNodes slackTemplateNodes p }] s.username]) := by
  by_cases he : env.SLACK_FAILED_CHANNEL ≠ "" <;>
    simp [NotifyFailed, failChannel, notify, getSlackMessage, h, he]

/-! ### Claim theorems: the Slack notifier -/

/-- C1: for `NotifySuccess` and `NotifyFailed` with a non-empty log, the
effect trace begins with the log upload, and any message post occurs only
afterwards, carrying the message rendered after the upload's permalink has
replaced the `Log` field. -/
theorem upload_precedes_post (s : slack) (env : Env) (api : SlackAPI)
    (p : MessageTemplateParam) (h : p.Log ≠ "") :
    (∃ e rest, (NotifySuccess s env api p).2 = e :: rest ∧ isUploadEffect e = true ∧
      ∀ e' ∈ rest, isPostEffect e' = true →
        ∃ f, api.uploadResult = Except.ok f ∧
          postedText e' =
            some (execNodes slackTemplateNodes { p with Log := f.Permalink })) ∧
    (∃ e rest, (NotifyFailed s env api p).2 = e :: rest ∧ isUploadEffect e = true ∧
      ∀ e' ∈ rest, isPostEffect e' = true →
        ∃ f, api.uploadResult = Except.ok f ∧
          postedText e' =
            some (execNodes slackTemplateNodes { p with Log := f.Permalink })) := by
  constructor
  · rw [NotifySuccess_log_eq s env api p h]
    cases hu : api.uploadResult with
    | error e =>
        refine ⟨_, [], rfl, rfl, ?_⟩
        intro e' he'
        simp at he'
    | ok f =>
        refine ⟨_, [_], rfl, rfl, ?_⟩
        intro e' he' _
        simp only [List.mem_singleton] at he'
        subst he'
        exact ⟨f, rfl, rfl⟩
  · rw [NotifyFailed_log_eq s env api p h]
    cases hu : api.uploadResult with
    | error e =>
        refine ⟨_, [], rfl, rfl, ?_⟩
        intro e' he'
        simp at he'
    | ok f =>
        refine ⟨_, [_], rfl, rfl, ?_⟩
        intro e' he' _
        simp only [List.mem_singleton] at he'
        subst he'
        exact ⟨f, rfl, rfl⟩

/-- Witness for C1 at concrete inputs. -/
theorem upload_precedes_post_witness :
    (MessageTemplateParam.Log ⟨"j", "n", "log"⟩ ≠ "") ∧
    (∃ e rest,
      (NotifySuccess ⟨"t", "c", "u"⟩ ⟨"t", "c", "u", "", ""⟩
          ⟨Except.ok ⟨"f", "link"⟩, Except.ok ("C", "ts")⟩ ⟨"j", "n", "log"⟩).2 =
        e :: rest ∧ isUploadEffect e = true ∧
      ∀ e' ∈ rest, isPostEffect e' = true →
        ∃ f, (SlackAPI.mk (Except.ok ⟨"f", "link"⟩) (Except.ok ("C", "ts"))).uploadResult =
            Except.ok f ∧
          postedText e' = some (execNodes slackTemplateNodes
            { (⟨"j", "n", "log"⟩ : MessageTemplateParam) with Log := f.Permalink })) :=
  ⟨by decide, (upload_precedes_post _ _ _ _ (by decide)).1⟩

/-- C2: with a non-empty log, a failed upload makes `NotifySuccess` and
`NotifyFailed` return that very error, and no message post is performed. -/
theorem upload_error_aborts (s : slack) (env : Env) (api : SlackAPI)
    (p : MessageTemplateParam) (h : p.Log ≠ "") (msg : String)
    (he : api.uploadResult = Except.error msg) :
    (NotifySuccess s env api p).1 = Except.error msg ∧
    (∀ e ∈ (NotifySuccess s env api p).2, isPostEffect e = false) ∧
    (NotifyFailed s env api p).1 = Except.error msg ∧
    (∀ e ∈ (NotifyFailed s env api p).2, isPostEffect e = false) := by
  rw [NotifySuccess_log_eq s env api p h, NotifyFailed_log_eq s env api p h, he]
  simp [isPostEffect]

/-- Witness for C2 at concrete inputs. -/
theorem upload_error_aborts_witness :
    (MessageTemplateParam.Log ⟨"j", "n", "log"⟩ ≠ "") ∧
    (NotifySuccess ⟨"t", "c", "u"⟩ ⟨"t", "c", "u", "", ""⟩
        ⟨Except.error "boom", Except.ok ("C", "ts")⟩ ⟨"j", "n", "log"⟩).1 =
      Except.error "boom" :=
  ⟨by decide, (upload_error_aborts _ _ _ _ (by decide) "boom" rfl).1⟩

/-- C3: every effect of a notification call addresses exactly one channel:
the success override (when non-empty, read at call time) for `NotifyStart`
and `NotifySuccess`, the failure override for `NotifyFailed`, otherwise the
default channel held by the notifier. -/
theorem channel_resolution (s : slack) (env : Env) (api : SlackAPI)
    (p : MessageTemplateParam) :
    (∀ e ∈ (NotifyStart s env api p).2, effectChannels e = [succChannel s env]) ∧
    (∀ e ∈ (NotifySuccess s env api p).2, effectChannels e = [succChannel s env]) ∧
    (∀ e ∈ (NotifyFailed s env api p).2, effectChannels e = [failChannel s env]) := by
  refine ⟨?_, ?_, ?_⟩
  · rw [NotifyStart_eq]
    simp [effectChannels]
  · by_cases h : p.Log = ""
    · rw [NotifySuccess_nolog_eq s env api p h]
      simp [effectChannels]
    · rw [NotifySuccess_log_eq s env api p h]
      cases hu : api.uploadResult <;> simp [effectChannels]
  · by_cases h : p.Log = ""
    · rw [NotifyFailed_nolog_eq s env api p h]
      simp [effectChannels]
    · rw [NotifyFailed_log_eq s env api p h]
      cases hu : api.uploadResult <;> simp [effectChannels]

/-- Witness for C3 at concrete inputs: with the override set, the post of
`NotifyStart` goes to the override channel. -/
theorem channel_resolution_witness :
    effectChannels
      (Effect.postMessage "over" "" [⟨"good", "Job Start", "\n*JobName*: j\n\n\n"⟩] "u") =
      ["over"] := by
  have h := (channel_resolution ⟨"t", "c", "u"⟩ ⟨"t", "c", "u", "over", ""⟩
    ⟨Except.ok ⟨"f", "l"⟩, Except.ok ("C", "ts")⟩ ⟨"j", "", ""⟩).1
  exact h _ (by decide)

/-- C5 counterexample: the channel overrides are NOT captured at
construction: with the very environment used at startup (no override set),
`NotifyStart` posts to the default channel, while the same notifier and
parameters post to "newchan" once `SLACK_SUCCEED_CHANNEL` changes to
"newchan" between the calls.  This refutes the claim that the channel used
depends only on configuration captured at construction time. -/
theorem config_immutability_counterexample :
    NewSlack ⟨"tok", "default", "bot", "", ""⟩ =
      some { token := "tok", channel := "default", username := "bot" } ∧
    (NotifyStart { token := "tok", channel := "default", username := "bot" }
        ⟨"tok", "default", "bot", "", ""⟩
        ⟨Except.ok ⟨"f", "link"⟩, Except.ok ("C", "ts")⟩ ⟨"j", "", ""⟩).2 =
      [Effect.postMessage "default" ""
        [⟨"good", "Job Start", "\n*JobName*: j\n\n\n"⟩] "bot"] ∧
    (NotifyStart { token := "tok", channel := "default", username := "bot" }
        ⟨"tok", "default", "bot", "newchan", ""⟩
        ⟨Except.ok ⟨"f", "link"⟩, Except.ok ("C", "ts")⟩ ⟨"j", "", ""⟩).2 =
      [Effect.postMessage "newchan" ""
        [⟨"good", "Job Start", "\n*JobName*: j\n\n\n"⟩] "bot"] := by
  refine ⟨rfl, ?_, ?_⟩ <;> rfl

/-- C5 (amended): the token, default channel and username are captured at
construction and never change, but the per-outcome channel overrides are
re-read from the environment at every call: a notification call depends on
the call-time environment exactly through its own override variable, so the
resolved channel can change between calls when that variable changes. -/
theorem config_call_time_override (s : slack) (env env' : Env) (api : SlackAPI)
    (p : MessageTemplateParam) :
    (env.SLACK_SUCCEED_CHANNEL = env'.SLACK_SUCCEED_CHANNEL →
      NotifyStart s env api p = NotifyStart s env' api p ∧
      NotifySuccess s env api p = NotifySuccess s env' api p) ∧
    (env.SLACK_FAILED_CHANNEL = env'.SLACK_FAILED_CHANNEL →
      NotifyFailed s env api p = NotifyFailed s env' api p) := by
  constructor
  · intro h
    constructor
    · simp [NotifyStart, h]
    · simp [NotifySuccess, h]
  · intro h
    simp [NotifyFailed, h]

/-- Witness for the amended C5 at concrete inputs. -/
theorem config_call_time_override_witness :
    Env.SLACK_SUCCEED_CHANNEL ⟨"t", "c", "u", "x", "y"⟩ =
      Env.SLACK_SUCCEED_CHANNEL ⟨"t2", "c2", "u2", "x", "y2"⟩ ∧
    NotifyStart ⟨"t", "c", "u"⟩ ⟨"t", "c", "u", "x", "y"⟩
        ⟨Except.ok ⟨"f", "l"⟩, Except.ok ("C", "ts")⟩ ⟨"j", "", ""⟩ =
      NotifyStart ⟨"t", "c", "u"⟩ ⟨"t2", "c2", "u2", "x", "y2"⟩
        ⟨Except.ok ⟨"f", "l"⟩, Except.ok ("C", "ts")⟩ ⟨"j", "", ""⟩ :=
  ⟨rfl, ((config_call_time_override ⟨"t", "c", "u"⟩ ⟨"t", "c", "u", "x", "y"⟩
    ⟨"t2", "c2", "u2", "x", "y2"⟩ ⟨Except.ok ⟨"f", "l"⟩, Except.ok ("C", "ts")⟩
    ⟨"j", "", ""⟩).1 rfl).1⟩

/-- C7: an empty bearer token makes `NewSlack` panic (construction fails,
the process cannot proceed); a non-empty token yields a notifier holding
that token together with the channel and username read at startup. -/
theorem token_required_at_construction (env : Env) :
    (env.SLACK_TOKEN = "" → NewSlack env = none) ∧
    (env.SLACK_TOKEN ≠ "" → NewSlack env =
      some { token := env.SLACK_TOKEN, channel := env.SLACK_CHANNEL,
             username := env.SLACK_USERNAME }) := by
  constructor <;> intro h <;> simp [NewSlack, h]

/-- Witness for C7 at concrete environments. -/
theorem token_required_at_construction_witness :
    NewSlack ⟨"", "c", "u", "", ""⟩ = none ∧
    NewSlack ⟨"tok", "c", "u", "", ""⟩ =
      some { token := "tok", channel := "c", username := "u" } :=
  ⟨(token_required_at_construction ⟨"", "c", "u", "", ""⟩).1 rfl,
   (token_required_at_construction ⟨"tok", "c", "u", "", ""⟩).2 (by decide)⟩

/-! ### Claim theorems: the metrics notifier -/

/-- C6: with a live client, `SuccessEvent` emits one service check under the
fixed identifier with status OK and `FailEvent` one with status Critical,
both tagged with the normalized job name and the namespace; in particular
the job "etl-job-27x9k" in namespace "data" yields status OK with tags
["job_name:etl-job", "namespace:data"]. -/
theorem service_check_emission (c : StatsdClient) (j : JobInfo) :
    (SuccessEvent ⟨some c⟩ j).2 =
      [{ Name := serviceCheckName, Status := SCStatus.Ok, Message := "Job succeed",
         Hostname := ddHostName,
         Tags := ["job_name:" ++ getJobName j, "namespace:" ++ j.Namespace] }] ∧
    (FailEvent ⟨some c⟩ j).2 =
      [{ Name := serviceCheckName, Status := SCStatus.Critical, Message := "Job failed",
         Hostname := ddHostName,
         Tags := ["job_name:" ++ getJobName j, "namespace:" ++ j.Namespace] }] ∧
    (SuccessEvent ⟨some c⟩ ⟨"etl-job-27x9k", "data"⟩).2 =
      [{ Name := serviceCheckName, Status := SCStatus.Ok, Message := "Job succeed",
         Hostname := ddHostName,
         Tags := ["job_name:etl-job", "namespace:data"] }] := by
  refine ⟨?_, ?_, ?_⟩ <;>
    cases hr : c.serviceCheckResult <;>
      simp [SuccessEvent, FailEvent, hr]
  all_goals decide

/-- C10 counterexample: emitting on a nil client does NOT dereference the
nil pointer.  `d.client.ServiceCheck(sc)` is a method call on a nil
receiver, and the statsd library's nil guard makes it return the
`ErrNoClient` error without emitting: at the concrete job below,
`SuccessEvent` and `FailEvent` on a nil-client notifier return that error
(not the nil-dereference outcome) and perform no emission, refuting the
claim's assertion that the emit-time accesses dereference a nil pointer. -/
theorem nil_client_emit_counterexample :
    SuccessEvent ⟨none⟩ ⟨"job-1a2b3", "ns"⟩ =
      (GoOutcome.ok (Except.error errNoClient), []) ∧
    (SuccessEvent ⟨none⟩ ⟨"job-1a2b3", "ns"⟩).1 ≠
      (GoOutcome.nilDeref : GoOutcome (Except String Unit)) ∧
    FailEvent ⟨none⟩ ⟨"job-1a2b3", "ns"⟩ =
      (GoOutcome.ok (Except.error errNoClient), []) ∧
    (FailEvent ⟨none⟩ ⟨"job-1a2b3", "ns"⟩).1 ≠
      (GoOutcome.nilDeref : GoOutcome (Except String Unit)) := by
  refine ⟨rfl, ?_, rfl, ?_⟩ <;> simp [SuccessEvent, FailEvent]

/-- C10 (amended): a statsd construction error is only logged: `newDatadog`
proceeds, and when neither `DD_TAGS` nor `DD_NAMESPACE` is set it returns a
notifier whose client is nil.  The construction-time accesses do
dereference the nil pointer — the tag/namespace assignments write through
it as soon as the corresponding variable is set — while
`SuccessEvent`/`FailEvent` call the library method on the nil client, whose
nil-receiver guard returns the `ErrNoClient` error with nothing emitted, so
every later emission attempt fails rather than crashing. -/
theorem nil_client_outcomes (newErr : String) (env : DDEnv) :
    (env.DD_TAGS = "" → env.DD_NAMESPACE = "" →
      newDatadog (Except.error newErr) env = GoOutcome.ok ⟨none⟩) ∧
    (env.DD_TAGS ≠ "" →
      newDatadog (Except.error newErr) env = GoOutcome.nilDeref) ∧
    (env.DD_TAGS = "" → env.DD_NAMESPACE ≠ "" →
      newDatadog (Except.error newErr) env = GoOutcome.nilDeref) ∧
    (∀ j : JobInfo,
      SuccessEvent ⟨none⟩ j = (GoOutcome.ok (Except.error errNoClient), []) ∧
      FailEvent ⟨none⟩ j = (GoOutcome.ok (Except.error errNoClient), [])) := by
  refine ⟨?_, ?_, ?_, ?_⟩
  · intro h1 h2
    simp [newDatadog, h1, h2]
  · intro h1
    simp [newDatadog, h1]
  · intro h1 h2
    simp [newDatadog, h1, h2]
  · intro j
    exact ⟨rfl, rfl⟩

/-- Witness for the amended C10 at concrete inputs. -/
theorem nil_client_outcomes_witness :
    newDatadog (Except.error "dial error") ⟨"", ""⟩ = GoOutcome.ok ⟨none⟩ ∧
    newDatadog (Except.error "dial error") ⟨"env:prod", ""⟩ = GoOutcome.nilDeref ∧
    SuccessEvent ⟨none⟩ ⟨"job-1a2b3", "ns"⟩ =
      (GoOutcome.ok (Except.error errNoClient), []) :=
  ⟨(nil_client_outcomes "dial error" ⟨"", ""⟩).1 rfl rfl,
   (nil_client_outcomes "dial error" ⟨"env:prod", ""⟩).2.1 (by decide),
   ((nil_client_outcomes "dial error" ⟨"", ""⟩).2.2.2 ⟨"job-1a2b3", "ns"⟩).1⟩
